import Mathlib

/-!
Verification of the TUF trust-engine core (rust-tuf): a shallow embedding of
`src/crypto.rs` and `src/tuf.rs` together with the collaborator behaviour the
spec prescribes for modules that are not part of the core sources
(`error.rs`, `metadata.rs`, the `rsa` DER helpers and the `ring` primitives).
Bytes are modelled as `Nat` values below 256, byte strings as `List Nat`,
timestamps as `Int`, and Rust's in-place mutation as explicit state passing:
every `update_*` operation maps a state and an input to a result paired with
the successor state.
-/

namespace RustTuf

/-! ### SHA-256 (FIPS 180-4), the digest behind `ring::digest::SHA256` -/

/-- Right rotation of a 32-bit word. -/
def rotr (n x : Nat) : Nat := ((x >>> n) ||| (x <<< (32 - n))) % 4294967296

/-- The σ0 message-schedule function of SHA-256. -/
def smallSigma0 (x : Nat) : Nat := (rotr 7 x) ^^^ (rotr 18 x) ^^^ (x >>> 3)

/-- The σ1 message-schedule function of SHA-256. -/
def smallSigma1 (x : Nat) : Nat := (rotr 17 x) ^^^ (rotr 19 x) ^^^ (x >>> 10)

/-- The Σ0 compression function of SHA-256. -/
def bigSigma0 (x : Nat) : Nat := (rotr 2 x) ^^^ (rotr 13 x) ^^^ (rotr 22 x)

/-- The Σ1 compression function of SHA-256. -/
def bigSigma1 (x : Nat) : Nat := (rotr 6 x) ^^^ (rotr 11 x) ^^^ (rotr 25 x)

/-- The 64 SHA-256 round constants. -/
def sha256K : List Nat :=
  [1116352408, 1899447441, 3049323471, 3921009573, 961987163,
   1508970993, 2453635748, 2870763221, 3624381080, 310598401,
   607225278, 1426881987, 1925078388, 2162078206, 2614888103,
   3248222580, 3835390401, 4022224774, 264347078, 604807628,
   770255983, 1249150122, 1555081692, 1996064986, 2554220882,
   2821834349, 2952996808, 3210313671, 3336571891, 3584528711,
   113926993, 338241895, 666307205, 773529912, 1294757372,
   1396182291, 1695183700, 1986661051, 2177026350, 2456956037,
   2730485921, 2820302411, 3259730800, 3345764771, 3516065817,
   3600352804, 4094571909, 275423344, 430227734, 506948616,
   659060556, 883997877, 958139571, 1322822218, 1537002063,
   1747873779, 1955562222, 2024104815, 2227730452, 2361852424,
   2428436474, 2756734187, 3204031479, 3329325298]

/-- The initial SHA-256 hash state. -/
def sha256H0 : List Nat :=
  [1779033703, 3144134277, 1013904242,
   2773480762, 1359893119, 2600822924,
   528734635, 1541459225]

/-- Big-endian encoding of a value as 8 bytes. -/
def be64 (n : Nat) : List Nat :=
  [(n >>> 56) % 256, (n >>> 48) % 256, (n >>> 40) % 256, (n >>> 32) % 256,
   (n >>> 24) % 256, (n >>> 16) % 256, (n >>> 8) % 256, n % 256]

/-- Big-endian encoding of a 32-bit word as 4 bytes. -/
def be32 (n : Nat) : List Nat :=
  [(n >>> 24) % 256, (n >>> 16) % 256, (n >>> 8) % 256, n % 256]

/-- SHA-256 padding: append `0x80`, zeros up to 56 mod 64, then the bit length. -/
def sha256Pad (msg : List Nat) : List Nat :=
  let len := msg.length
  let padZeros := (119 - (len % 64)) % 64
  msg ++ 0x80 :: List.replicate padZeros 0 ++ be64 (8 * len)

/-- Assemble big-endian 32-bit words from bytes. -/
def bytesToWords : List Nat → List Nat
  | b0 :: b1 :: b2 :: b3 :: rest =>
      ((b0 % 256) <<< 24 ||| (b1 % 256) <<< 16 ||| (b2 % 256) <<< 8 ||| (b3 % 256))
        :: bytesToWords rest
  | _ => []

/-- Accumulating splitter used by `chunk64`: `n` counts the bytes still
missing from the current (reversed) chunk `acc`. -/
def chunk64Go : List Nat → List Nat → Nat → List (List Nat)
  | [], acc, _ => if acc.isEmpty then [] else [acc.reverse]
  | x :: rest, acc, n =>
      if n = 1 then (x :: acc).reverse :: chunk64Go rest [] 64
      else chunk64Go rest (x :: acc) (n - 1)

/-- Split a byte string into 64-byte blocks. -/
def chunk64 (xs : List Nat) : List (List Nat) :=
  chunk64Go xs [] 64

/-- Extend a 16-word block to the 64-word SHA-256 message schedule. -/
def extendSchedule : Nat → List Nat → List Nat
  | 0, ws => ws
  | n + 1, ws =>
      let t := ws.length
      let wt := (smallSigma1 (ws.getD (t - 2) 0) + ws.getD (t - 7) 0 +
                 smallSigma0 (ws.getD (t - 15) 0) + ws.getD (t - 16) 0) % 4294967296
      extendSchedule n (ws ++ [wt])

/-- One SHA-256 round, acting on the working variables `[a,b,c,d,e,f,g,h]`. -/
def sha256Round (st : List Nat) (wk : Nat × Nat) : List Nat :=
  match st with
  | [a, b, c, d, e, f, g, h] =>
      let ch := (e &&& f) ^^^ ((4294967295 ^^^ e) &&& g)
      let maj := (a &&& b) ^^^ (a &&& c) ^^^ (b &&& c)
      let t1 := (h + bigSigma1 e + ch + wk.2 + wk.1) % 4294967296
      let t2 := (bigSigma0 a + maj) % 4294967296
      [(t1 + t2) % 4294967296, a, b, c, (d + t1) % 4294967296, e, f, g]
  | other => other

/-- SHA-256 compression of one 64-byte block into the hash state. -/
def sha256Compress (hstate : List Nat) (block : List Nat) : List Nat :=
  let ws := extendSchedule 48 (bytesToWords block)
  let fin := (List.zip ws sha256K).foldl sha256Round hstate
  List.zipWith (fun x y => (x + y) % 4294967296) hstate fin

/-- SHA-256 of a byte string, as 32 output bytes.  This is the digest computed
by `ring::digest::Context::new(&SHA256)`; the `ring` crate is outside this
repository, so the function is the standard FIPS 180-4 algorithm. -/
def sha256 (msg : List Nat) : List Nat :=
  ((chunk64 (sha256Pad (msg.map (fun b => b % 256)))).foldl sha256Compress sha256H0).flatMap be32

/-! ### Errors and roles

Modelled from the spec: `error.rs` and the `Role` enum of `metadata.rs` are not
under `src/`; the spec lists the error kinds surfaced by the core in section 7.
-/

/-- The four top-level TUF roles. -/
inductive Role where
  | Root
  | Timestamp
  | Snapshot
  | Targets
deriving DecidableEq, Repr

/-- Modelled from the spec: the error kinds surfaced by the core. -/
inductive Error where
  | VerificationFailure (reason : String)
  | ExpiredMetadata (role : Role)
  | MissingMetadata (role : Role)
  | BadSignature
  | UnsupportedKeyType (s : String)
  | UnsupportedSignatureScheme (s : String)
  | IllegalArgument (reason : String)
  | Decode (reason : String)
  | TargetUnavailable
deriving DecidableEq, Repr

/-- Whether an error is the `IllegalArgument` kind. -/
def Error.isIllegalArgument : Error → Bool
  | .IllegalArgument _ => true
  | _ => false

instance {ε α : Type} [DecidableEq ε] [DecidableEq α] : DecidableEq (Except ε α) := fun x y =>
  match x, y with
  | .ok a, .ok b =>
      if h : a = b then .isTrue (by rw [h])
      else .isFalse (by intro hc; cases hc; exact h rfl)
  | .error a, .error b =>
      if h : a = b then .isTrue (by rw [h])
      else .isFalse (by intro hc; cases hc; exact h rfl)
  | .ok _, .error _ => .isFalse (by intro hc; cases hc)
  | .error _, .ok _ => .isFalse (by intro hc; cases hc)

/-! ### `src/crypto.rs` -/

/-- Wrapper type for a public key's ID (`KeyId` holds a `Vec<u8>`). -/
abbrev KeyId := List Nat

/-- Wrapper type for a decoded public key (`PublicKeyValue` holds a `Vec<u8>`). -/
abbrev PublicKeyValue := List Nat

/-- `calculate_key_id`: a `KeyId` is calculated as `sha256(public_key_bytes)`
over the bytes of the given `PublicKeyValue`. -/
def calculate_key_id (public_key : PublicKeyValue) : KeyId :=
  sha256 public_key

/-- Cryptographic signature schemes. -/
inductive SignatureScheme where
  | Ed25519
  | RsaSsaPssSha256
  | RsaSsaPssSha512
deriving DecidableEq, Repr

/-- `SignatureScheme::from_str`: the three recognized scheme strings; anything
else is an `UnsupportedSignatureScheme` error. -/
def SignatureScheme.fromStr (s : String) : Except Error SignatureScheme :=
  if s = "ed25519" then .ok .Ed25519
  else if s = "rsassa-pss-sha256" then .ok .RsaSsaPssSha256
  else if s = "rsassa-pss-sha512" then .ok .RsaSsaPssSha512
  else .error (.UnsupportedSignatureScheme s)

/-- Outcome of running a Rust computation that may panic. -/
inductive PanicOutcome (α : Type) where
  | ok : α → PanicOutcome α
  | panicked : PanicOutcome α
deriving DecidableEq, Repr

/-- `impl Deserialize for SignatureScheme`: deserializes the scheme string and
then calls `string.parse().unwrap()`; `unwrap` on an `Err` is a Rust panic. -/
def SignatureScheme.deserializeString (s : String) : PanicOutcome SignatureScheme :=
  match SignatureScheme.fromStr s with
  | .ok v => .ok v
  | .error _ => .panicked

/-- Types of public keys. -/
inductive KeyType where
  | Ed25519
  | Rsa
deriving DecidableEq, Repr

/-- Possible encoding/decoding formats for a public key. -/
inductive KeyFormat where
  | HexLower
  | Pkcs1
  | Spki
deriving DecidableEq, Repr

/-- Modelled from the spec: the `rsa` DER helpers are not under `src/`.  A
PKCS#1 `RSAPublicKey` is a DER SEQUENCE (tag `0x30`, here with a short-form
length); `rsa::from_pkcs1` requires parseability and yields the PKCS#1 bytes. -/
def pkcs1Parses (b : List Nat) : Bool :=
  match b with
  | 0x30 :: len :: rest => len < 0x80 && rest.length == len
  | _ => false

/-- Modelled from the spec: `rsa::from_pkcs1` (module `rsa` is not under
`src/`): "accept PKCS#1 ... require parseability". -/
def rsaFromPkcs1 (b : List Nat) : Option (List Nat) :=
  if pkcs1Parses b then some b else none

/-- The DER `AlgorithmIdentifier` for rsaEncryption used inside an SPKI key. -/
def rsaAlgorithmIdentifier : List Nat :=
  [0x30, 0x0d, 0x06, 0x09, 0x2a, 0x86, 0x48, 0x86, 0xf7, 0x0d, 0x01, 0x01, 0x01, 0x05, 0x00]

/-- Modelled from the spec: `rsa::from_spki` (module `rsa` is not under
`src/`): "accept ... SPKI input; normalize to PKCS#1 internally".  An SPKI key
is a DER SEQUENCE holding the RSA `AlgorithmIdentifier` and a BIT STRING whose
content (after the unused-bits octet) is the PKCS#1 key; `from_spki` strips the
wrapper and returns the inner PKCS#1 DER bytes. -/
def rsaFromSpki (b : List Nat) : Option (List Nat) :=
  match b with
  | 0x30 :: len :: rest =>
      if len < 0x80 ∧ rest.length = len ∧ rest.take 15 = rsaAlgorithmIdentifier then
        match rest.drop 15 with
        | 0x03 :: bitLen :: 0x00 :: inner =>
            if inner.length + 1 = bitLen ∧ pkcs1Parses inner then some inner else none
        | _ => none
      else none
  | _ => none

/-- A structure containing information about a public key. -/
structure PublicKey where
  typ : KeyType
  format : KeyFormat
  key_id : KeyId
  value : PublicKeyValue
deriving DecidableEq, Repr

/-- `PublicKey::from_ed25519`: the value must be exactly 32 bytes, otherwise a
`Decode` error; on success the key id is the SHA-256 of the value. -/
def PublicKey.from_ed25519 (value : PublicKeyValue) : Except Error PublicKey :=
  if value.length ≠ 32 then
    .error (.Decode "Ed25519 public key was not 32 bytes long")
  else
    .ok { typ := .Ed25519, format := .HexLower,
          key_id := calculate_key_id value, value := value }

/-- `PublicKey::from_rsa`: the key id is computed from the supplied value
bytes first; the value is then converted to PKCS#1 according to the claimed
format and the converted bytes are stored as the key's value. -/
def PublicKey.from_rsa (value : PublicKeyValue) (format : KeyFormat) :
    Except Error PublicKey :=
  let key_id := calculate_key_id value
  match format with
  | .Pkcs1 =>
      match rsaFromPkcs1 value with
      | some bytes => .ok { typ := .Rsa, format := format, key_id := key_id, value := bytes }
      | none => .error (.IllegalArgument "Key claimed to be PKCS1 but could not be parsed.")
  | .Spki =>
      match rsaFromSpki value with
      | some bytes => .ok { typ := .Rsa, format := format, key_id := key_id, value := bytes }
      | none => .error (.IllegalArgument "Key claimed to be SPKI but could not be parsed.")
  | .HexLower => .error (.IllegalArgument "RSA keys in format HexLower not supported.")

/-- Modelled from the spec: `ring::signature::verify` is external to this
repository.  Idealized model of the signature primitives: a signature is valid
exactly when it equals the canonical signature of the message under the key
and scheme, so that valid and invalid signatures can be constructed concretely
but never forged within the model. -/
def symbolicSig (scheme : SignatureScheme) (key msg : List Nat) : List Nat :=
  (match scheme with
   | .Ed25519 => 0
   | .RsaSsaPssSha256 => 1
   | .RsaSsaPssSha512 => 2) :: key.length :: (key ++ msg)

/-- Modelled from the spec: the verification primitive selected by the scheme
(`ED25519`, `RSA_PSS_2048_8192_SHA256`, `RSA_PSS_2048_8192_SHA512`). -/
def ringVerify (scheme : SignatureScheme) (key msg sig : List Nat) : Bool :=
  sig == symbolicSig scheme key msg

/-- `PublicKey::verify`: runs the scheme's primitive over the key's value; a
failed primitive verification is the `BadSignature` error. -/
def PublicKey.verify (k : PublicKey) (scheme : SignatureScheme)
    (msg : List Nat) (sig : List Nat) : Except Error Unit :=
  if ringVerify scheme k.value msg sig then .ok () else .error .BadSignature

/-! ### Metadata model

Modelled from the spec: `metadata.rs` is not under `src/`; the data model is
section 3 of the spec and the threshold-signature check is section 4.2.
`HashMap`s become association lists whose lookup returns the first binding,
and `Utc` instants become `Int` values compared with `≤`.
-/

/-- A slash-delimited role identifier such as `"targets"` or `"delegations/a"`. -/
abbrev MetadataPath := String

/-- A slash-delimited target identifier. -/
abbrev VirtualTargetPath := String

/-- First-binding lookup in an association list (the `HashMap::get` of the model). -/
def assocGet {α β : Type} [BEq α] (m : List (α × β)) (k : α) : Option β :=
  (m.find? (fun kv => kv.1 == k)).map (fun kv => kv.2)

/-- Insert-or-replace in an association list (the `HashMap::insert` of the model). -/
def assocInsert {α β : Type} [BEq α] (m : List (α × β)) (k : α) (v : β) : List (α × β) :=
  (k, v) :: m.filter (fun kv => !(kv.1 == k))

/-- Modelled from the spec: a role definition inside root metadata,
`(key_ids, threshold)`. -/
structure RoleDefinition where
  key_ids : List KeyId
  threshold : Nat
deriving DecidableEq, Repr

/-- Modelled from the spec: root metadata with its version, expiration, key
map and the four top-level role definitions. -/
structure RootMetadata where
  version : Nat
  expires : Int
  keys : List (KeyId × PublicKey)
  root : RoleDefinition
  snapshot : RoleDefinition
  targets : RoleDefinition
  timestamp : RoleDefinition
deriving DecidableEq, Repr

/-- Modelled from the spec: the description of a metadata file recorded inside
timestamp or snapshot metadata (hashes and length are optional and unused by
the engine's checks, so only the version is carried). -/
structure MetadataDescription where
  version : Nat
deriving DecidableEq, Repr

/-- Modelled from the spec: timestamp metadata, whose `snapshot` field
describes the expected snapshot. -/
structure TimestampMetadata where
  version : Nat
  expires : Int
  snapshot : MetadataDescription
deriving DecidableEq, Repr

/-- Modelled from the spec: snapshot metadata with its map of metadata-path
descriptions. -/
structure SnapshotMetadata where
  version : Nat
  expires : Int
  meta : List (MetadataPath × MetadataDescription)
deriving DecidableEq, Repr

/-- Modelled from the spec: the description needed to verify a target. -/
structure TargetDescription where
  length : Nat
  hashes : List (Nat × List Nat)
deriving DecidableEq, Repr

/-- Modelled from the spec: one delegation entry of a `Delegations` list. -/
structure Delegation where
  role : MetadataPath
  key_ids : List KeyId
  threshold : Nat
  terminating : Bool
  paths : List VirtualTargetPath
deriving DecidableEq, Repr

/-- Modelled from the spec: a delegations section, its key map and ordered roles. -/
structure Delegations where
  keys : List (KeyId × PublicKey)
  roles : List Delegation
deriving DecidableEq, Repr

/-- Modelled from the spec: targets metadata with its target map and optional
delegations. -/
structure TargetsMetadata where
  version : Nat
  expires : Int
  targets : List (VirtualTargetPath × TargetDescription)
  delegations : Option Delegations
deriving DecidableEq, Repr

/-- Modelled from the spec: a signature record `(key_id, scheme, signature_bytes)`. -/
structure Signature where
  key_id : KeyId
  scheme : SignatureScheme
  sig : List Nat
deriving DecidableEq, Repr

/-- Modelled from the spec: signed metadata, generic over the role payload: the
signatures, the parsed payload, and the canonical serialization of the payload
used as signature input (the interchange codec producing it is external). -/
structure SignedMetadata (M : Type) where
  signatures : List Signature
  signed : M
  canonical_bytes : List Nat
deriving DecidableEq, Repr

/-- Filter a key map down to the keys whose id appears in `ids`, as the engine
does with `keys().iter().filter_map(...)` before each verification. -/
def authorizedKeys (keys : List (KeyId × PublicKey)) (ids : List KeyId) : List PublicKey :=
  keys.filterMap (fun kv => if ids.contains kv.1 then some kv.2 else none)

/-- Modelled from the spec: `SignedMetadata::verify`.  Every provided
signature whose key id is found among the candidate keys is checked with the
scheme's primitive; each key contributes at most one good count; the good
count must reach the threshold, otherwise the call fails with
`VerificationFailure("Signature threshold not met: g/t")`. -/
def SignedMetadata.verify {M : Type} (sm : SignedMetadata M) (threshold : Nat)
    (authorized_keys : List PublicKey) : Except Error M :=
  let goodIds := (authorized_keys.filter (fun k =>
    sm.signatures.any (fun s =>
      s.key_id == k.key_id && (k.verify s.scheme sm.canonical_bytes s.sig).isOk))).map
      (fun k => k.key_id)
  let good := goodIds.dedup.length
  if good ≥ threshold then .ok sm.signed
  else .error (.VerificationFailure s!"Signature threshold not met: {good}/{threshold}")

/-- Fuel-bounded glob matcher.  Each step shrinks `pattern.length + path.length`,
so fuel `pattern.length + path.length + 1` makes the out-of-fuel case unreachable. -/
def globMatchFuel : Nat → List Char → List Char → Bool
  | 0, _, _ => false
  | fuel + 1, pattern, path =>
      match pattern, path with
      | [], [] => true
      | '*' :: ps, [] => globMatchFuel fuel ps []
      | '*' :: ps, c :: cs =>
          globMatchFuel fuel ps (c :: cs) || globMatchFuel fuel ('*' :: ps) cs
      | '?' :: ps, _ :: cs => globMatchFuel fuel ps cs
      | p :: ps, c :: cs => p == c && globMatchFuel fuel ps cs
      | _, _ => false

/-- Modelled from the spec: TUF path-pattern matching for `VirtualTargetPath`
(`metadata.rs` is not under `src/`): "a pattern may be a literal path or use
glob-style wildcards" — `*` matches any character sequence, `?` one character. -/
def globMatch (pattern path : String) : Bool :=
  globMatchFuel (pattern.length + path.length + 1) pattern.toList path.toList

/-- Modelled from the spec: `VirtualTargetPath::matches_chain` — the target
path must be admitted by some pattern of every level of the parent chain. -/
def matchesChain (target : VirtualTargetPath) (parents : List (List VirtualTargetPath)) : Bool :=
  parents.all (fun level => level.any (fun pat => globMatch pat target))

/-! ### `src/tuf.rs` — the trust engine -/

/-- The trusted TUF metadata held by the engine (`struct Tuf`). -/
structure Tuf where
  root : RootMetadata
  snapshot : Option SnapshotMetadata
  targets : Option TargetsMetadata
  timestamp : Option TimestampMetadata
  delegations : List (MetadataPath × TargetsMetadata)
deriving DecidableEq, Repr

/-- `current_timestamp_version`: the installed timestamp's version, or 0. -/
def Tuf.current_timestamp_version (tuf : Tuf) : Nat :=
  (tuf.timestamp.map (fun t => t.version)).getD 0

/-- `current_snapshot_version`: the installed snapshot's version, or 0. -/
def Tuf.current_snapshot_version (tuf : Tuf) : Nat :=
  (tuf.snapshot.map (fun t => t.version)).getD 0

/-- `current_targets_version`: the installed targets' version, or 0. -/
def Tuf.current_targets_version (tuf : Tuf) : Nat :=
  (tuf.targets.map (fun t => t.version)).getD 0

/-- `current_delegation_version`: the version of the loaded delegation, or 0. -/
def Tuf.current_delegation_version (tuf : Tuf) (role : MetadataPath) : Nat :=
  ((assocGet tuf.delegations role).map (fun t => t.version)).getD 0

/-- `safe_root_ref`: the root metadata, provided it has not expired. -/
def Tuf.safe_root_ref (tuf : Tuf) (now : Int) : Except Error RootMetadata :=
  if tuf.root.expires ≤ now then .error (.ExpiredMetadata .Root) else .ok tuf.root

/-- `safe_snapshot_ref`: the snapshot metadata, provided it exists and has not
expired. -/
def Tuf.safe_snapshot_ref (tuf : Tuf) (now : Int) : Except Error SnapshotMetadata :=
  match tuf.snapshot with
  | some snapshot =>
      if snapshot.expires ≤ now then .error (.ExpiredMetadata .Snapshot) else .ok snapshot
  | none => .error (.MissingMetadata .Snapshot)

/-- `safe_targets_ref`: the targets metadata, provided it exists and has not
expired. -/
def Tuf.safe_targets_ref (tuf : Tuf) (now : Int) : Except Error TargetsMetadata :=
  match tuf.targets with
  | some targets =>
      if targets.expires ≤ now then .error (.ExpiredMetadata .Targets) else .ok targets
  | none => .error (.MissingMetadata .Targets)

/-- `safe_timestamp_ref`: the timestamp metadata, provided it exists and has
not expired. -/
def Tuf.safe_timestamp_ref (tuf : Tuf) (now : Int) : Except Error TimestampMetadata :=
  match tuf.timestamp with
  | some timestamp =>
      if timestamp.expires ≤ now then .error (.ExpiredMetadata .Timestamp) else .ok timestamp
  | none => .error (.MissingMetadata .Timestamp)

/-- `purge_metadata`: clear snapshot, targets, timestamp and all delegations. -/
def Tuf.purge_metadata (tuf : Tuf) : Tuf :=
  { tuf with snapshot := none, targets := none, timestamp := none, delegations := [] }

/-- `update_root`: verify the new root under the current root's role, treat an
equal version as a no-op and a lower version as a rollback, verify again under
the new root's own role, then purge derived state and install. -/
def Tuf.update_root (tuf : Tuf) (signed_root : SignedMetadata RootMetadata) :
    Except Error Bool × Tuf :=
  match signed_root.verify tuf.root.root.threshold
      (authorizedKeys tuf.root.keys tuf.root.root.key_ids) with
  | .error e => (.error e, tuf)
  | .ok new_root =>
      if new_root.version = tuf.root.version then
        (.ok false, tuf)
      else if new_root.version < tuf.root.version then
        let v_old := tuf.root.version
        let v_new := new_root.version
        (.error (.VerificationFailure
          s!"Attempted to roll back root metadata at version {v_old} to {v_new}."), tuf)
      else
        match signed_root.verify new_root.root.threshold
            (authorizedKeys new_root.keys new_root.root.key_ids) with
        | .error e => (.error e, tuf)
        | .ok verified => (.ok true, { tuf.purge_metadata with root := verified })

/-- `update_timestamp`: verify under the current root's timestamp role, reject
expired input, reject rollback, treat an equal version as a no-op, clear the
snapshot when the described snapshot version changed, then install. -/
def Tuf.update_timestamp (tuf : Tuf) (now : Int)
    (signed_timestamp : SignedMetadata TimestampMetadata) :
    Except Error (Option TimestampMetadata) × Tuf :=
  match signed_timestamp.verify tuf.root.timestamp.threshold
      (authorizedKeys tuf.root.keys tuf.root.timestamp.key_ids) with
  | .error e => (.error e, tuf)
  | .ok timestamp =>
      if timestamp.expires ≤ now then
        (.error (.ExpiredMetadata .Timestamp), tuf)
      else
        let current_version := tuf.current_timestamp_version
        if timestamp.version < current_version then
          let v := timestamp.version
          (.error (.VerificationFailure
            s!"Attempted to roll back timestamp metadata at version {current_version} to {v}."), tuf)
        else if timestamp.version = current_version then
          (.ok none, tuf)
        else
          let tuf1 :=
            if tuf.current_snapshot_version ≠ timestamp.snapshot.version then
              { tuf with snapshot := none }
            else tuf
          (.ok (some timestamp), { tuf1 with timestamp := some timestamp })

/-- `purge_delegations`: drop every loaded delegation whose version exceeds
the version the current snapshot lists for that role. -/
def Tuf.purge_delegations (tuf : Tuf) : Tuf :=
  match tuf.snapshot with
  | none => tuf
  | some snapshot =>
      let purge := snapshot.meta.filterMap (fun rd =>
        match assocGet tuf.delegations rd.1 with
        | some delegation => if delegation.version > rd.2.version then some rd.1 else none
        | none => none)
      { tuf with delegations := tuf.delegations.filter (fun rd => !(purge.contains rd.1)) }

/-- `update_snapshot`: require a valid root and timestamp, compare the
timestamp's described snapshot version against the installed one (rollback
fails, equality is a no-op), verify the input under the root's snapshot role,
require its version to equal the described one, then install — deliberately
without checking the new snapshot's expiration — clearing targets when the
described targets version changed and purging superseded delegations. -/
def Tuf.update_snapshot (tuf : Tuf) (now : Int)
    (signed_snapshot : SignedMetadata SnapshotMetadata) : Except Error Bool × Tuf :=
  match tuf.safe_root_ref now with
  | .error e => (.error e, tuf)
  | .ok root =>
      match tuf.safe_timestamp_ref now with
      | .error e => (.error e, tuf)
      | .ok timestamp =>
          let current_version := tuf.current_snapshot_version
          if timestamp.snapshot.version < current_version then
            let v := timestamp.snapshot.version
            (.error (.VerificationFailure
              s!"Attempted to roll back snapshot metadata at version {current_version} to {v}."),
             tuf)
          else if timestamp.snapshot.version = current_version then
            (.ok false, tuf)
          else
            match signed_snapshot.verify root.snapshot.threshold
                (authorizedKeys tuf.root.keys root.snapshot.key_ids) with
            | .error e => (.error e, tuf)
            | .ok snapshot =>
                if snapshot.version ≠ timestamp.snapshot.version then
                  let v_want := timestamp.snapshot.version
                  let v_got := snapshot.version
                  (.error (.VerificationFailure
                    s!"The timestamp metadata reported that the snapshot metadata should be at version {v_want} but version {v_got} was found instead."),
                   tuf)
                else
                  let tuf1 :=
                    if (tuf.targets.map (fun s => s.version)).getD 0 ≠
                        ((assocGet snapshot.meta "targets").map (fun m => m.version)).getD 0 then
                      { tuf with targets := none }
                    else tuf
                  let tuf2 := { tuf1 with snapshot := some snapshot }
                  (.ok true, tuf2.purge_delegations)

/-- `update_targets`: require a valid root and snapshot and a description of
the targets role inside the snapshot; rollback of the described version fails
and equality is a no-op; verify under the root's targets role; require the
version to equal the described one; reject an expired document (the source
names `Role::Snapshot` in that error); then install. -/
def Tuf.update_targets (tuf : Tuf) (now : Int)
    (signed_targets : SignedMetadata TargetsMetadata) : Except Error Bool × Tuf :=
  match tuf.safe_root_ref now with
  | .error e => (.error e, tuf)
  | .ok root =>
      match tuf.safe_snapshot_ref now with
      | .error e => (.error e, tuf)
      | .ok snapshot =>
          match assocGet snapshot.meta "targets" with
          | none =>
              (.error (.VerificationFailure
                "Snapshot metadata had no description of the targets metadata"), tuf)
          | some targets_description =>
              let current_version := tuf.current_targets_version
              if targets_description.version < current_version then
                let v := targets_description.version
                (.error (.VerificationFailure
                  s!"Attempted to roll back targets metadata at version {current_version} to {v}."),
                 tuf)
              else if targets_description.version = current_version then
                (.ok false, tuf)
              else
                match signed_targets.verify root.targets.threshold
                    (authorizedKeys root.keys root.targets.key_ids) with
                | .error e => (.error e, tuf)
                | .ok targets =>
                    if targets.version ≠ targets_description.version then
                      let v_want := targets_description.version
                      let v_got := targets.version
                      (.error (.VerificationFailure
                        s!"The timestamp metadata reported that the targets metadata should be at version {v_want} but version {v_got} was found instead."),
                       tuf)
                    else if targets.expires ≤ now then
                      (.error (.ExpiredMetadata .Snapshot), tuf)
                    else
                      (.ok true, { tuf with targets := some targets })

/-- `find_delegation`: from the parent role (the top-level targets role or a
loaded delegation), the first delegation entry naming `role`, together with
the delegations keys authorized for it. -/
def Tuf.find_delegation (tuf : Tuf) (parent_role role : MetadataPath) :
    Option (List PublicKey × Delegation) :=
  let parent :=
    if parent_role == "targets" then tuf.targets else assocGet tuf.delegations parent_role
  match parent with
  | none => none
  | some parent =>
      match parent.delegations with
      | none => none
      | some delegations =>
          match delegations.roles.find? (fun d => d.role == role) with
          | none => none
          | some delegation =>
              some (authorizedKeys delegations.keys delegation.key_ids, delegation)

/-- `update_delegation`: require valid root, snapshot and targets and an
authorized delegations section; the snapshot must describe the role and its
described version must not roll back; the delegation entry reachable from the
parent supplies keys and threshold for verification; an equal version is a
no-op; the version must match the description; an expired document is
rejected; then the delegation is installed. -/
def Tuf.update_delegation (tuf : Tuf) (now : Int) (parent_role role : MetadataPath)
    (signed_delegation : SignedMetadata TargetsMetadata) : Except Error Bool × Tuf :=
  match tuf.safe_root_ref now with
  | .error e => (.error e, tuf)
  | .ok _ =>
      match tuf.safe_snapshot_ref now with
      | .error e => (.error e, tuf)
      | .ok snapshot =>
          match tuf.safe_targets_ref now with
          | .error e => (.error e, tuf)
          | .ok targets =>
              if targets.delegations.isNone then
                (.error (.VerificationFailure "Delegations not authorized"), tuf)
              else
                match assocGet snapshot.meta role with
                | none =>
                    (.error (.VerificationFailure
                      s!"The degated role {role} was not present in the snapshot metadata."), tuf)
                | some delegation_description =>
                    let current_version := tuf.current_delegation_version role
                    if delegation_description.version < current_version then
                      let v := delegation_description.version
                      (.error (.VerificationFailure
                        s!"Snapshot metadata did listed delegation {role} version as {v} but current version is {current_version}"),
                       tuf)
                    else
                      match tuf.find_delegation parent_role role with
                      | none =>
                          (.error (.VerificationFailure
                            s!"The delegated role {role} is not known to the base targets metadata or any known delegated targets metadata"),
                           tuf)
                      | some (keys, delegation) =>
                          match signed_delegation.verify delegation.threshold keys with
                          | .error e => (.error e, tuf)
                          | .ok verified =>
                              if current_version = delegation_description.version then
                                (.ok false, tuf)
                              else if verified.version ≠ delegation_description.version then
                                let v_want := delegation_description.version
                                let v_got := verified.version
                                (.error (.VerificationFailure
                                  s!"The snapshot metadata reported that the delegation {role} should be at version {v_want} but version {v_got} was found instead."),
                                 tuf)
                              else if verified.expires ≤ now then
                                (.error (.ExpiredMetadata .Targets), tuf)
                              else
                                (.ok true,
                                 { tuf with
                                   delegations := assocInsert tuf.delegations role verified })

/-- The recursive delegation search of `target_description` (`fn lookup`),
with the mutable `visited` set threaded through every step and returned.  The
`fuel` argument only bounds the recursion so the definition is structural: a
role is descended into at most once (its path is inserted into `visited`
first, and a revisit returns immediately), so each delegations list of the
engine is traversed at most once and `lookupFuel` below exceeds the number of
recursive calls any search can make; the out-of-fuel case is unreachable from
`target_description`. -/
def lookupRoles (tuf : Tuf) (now : Int) (target_path : VirtualTargetPath) :
    Nat → Bool → Nat → List Delegation → List (List VirtualTargetPath) →
    List MetadataPath → ((Bool × Option TargetDescription) × List MetadataPath)
  | 0, _, _, _, _, visited => ((false, none), visited)
  | fuel + 1, default_terminate, current_depth, roles, parents, visited =>
      match roles with
      | [] => ((default_terminate, none), visited)
      | delegation :: rest =>
          if visited.contains delegation.role then
            ((delegation.terminating, none), visited)
          else
            let visited1 := delegation.role :: visited
            if current_depth > 0 ∧ !(matchesChain target_path parents) then
              ((delegation.terminating, none), visited1)
            else
              match assocGet tuf.delegations delegation.role with
              | none => ((delegation.terminating, none), visited1)
              | some targets =>
                  if targets.expires ≤ now then
                    ((delegation.terminating, none), visited1)
                  else
                    match assocGet targets.targets target_path with
                    | some d => ((delegation.terminating, some d), visited1)
                    | none =>
                        match targets.delegations with
                        | some d =>
                            let new_parents := parents ++ [delegation.paths]
                            let res := lookupRoles tuf now target_path fuel
                              delegation.terminating (current_depth + 1) d.roles
                              new_parents visited1
                            let term := res.1.1
                            let descr := res.1.2
                            let visited2 := res.2
                            if term then ((true, descr), visited2)
                            else if descr.isSome then ((term, descr), visited2)
                            else lookupRoles tuf now target_path fuel default_terminate
                              current_depth rest parents visited2
                        | none =>
                            lookupRoles tuf now target_path fuel default_terminate
                              current_depth rest parents visited1

/-- An upper bound on the recursive calls a delegation search can make: twice
the number of delegation entries in the top-level targets and in every loaded
delegated targets, plus slack for the frame entries and empty-list terminals. -/
def Tuf.lookupFuel (tuf : Tuf) : Nat :=
  2 * ((match tuf.targets with
        | some t => match t.delegations with
                    | some d => d.roles.length
                    | none => 0
        | none => 0) +
       (tuf.delegations.map (fun rm =>
          match rm.2.delegations with
          | some d => d.roles.length + 1
          | none => 1)).sum + 2)

/-- `target_description`: require valid root, snapshot and targets; answer a
top-level targets entry directly, otherwise search the delegation graph. -/
def Tuf.target_description (tuf : Tuf) (now : Int) (target_path : VirtualTargetPath) :
    Except Error TargetDescription :=
  match tuf.safe_root_ref now with
  | .error e => .error e
  | .ok _ =>
      match tuf.safe_snapshot_ref now with
      | .error e => .error e
      | .ok _ =>
          match tuf.safe_targets_ref now with
          | .error e => .error e
          | .ok targets =>
              match assocGet targets.targets target_path with
              | some d => .ok d
              | none =>
                  match targets.delegations with
                  | some d =>
                      match (lookupRoles tuf now target_path tuf.lookupFuel
                          false 0 d.roles [] []).1.2 with
                      | some descr => .ok descr
                      | none => .error .TargetUnavailable
                  | none => .error .TargetUnavailable

/-! ### Concrete fixtures used by witnesses and counterexamples -/

/-- A minimal PKCS#1 body used as the payload of the SPKI example. -/
def pkcs1Inner : List Nat := [0x30, 0x02, 0x01, 0x02]

/-- An SPKI-wrapped RSA public key: outer SEQUENCE, RSA algorithm identifier,
BIT STRING holding `pkcs1Inner`. -/
def spkiExample : List Nat :=
  0x30 :: 0x16 :: (rsaAlgorithmIdentifier ++ (0x03 :: 0x05 :: 0x00 :: pkcs1Inner))

/-- The key `PublicKey::from_rsa` builds from `spkiExample`: the id is the
SHA-256 of the supplied SPKI bytes while the stored value is the converted
PKCS#1 body. -/
def spkiExampleKey : PublicKey :=
  { typ := .Rsa, format := .Spki, key_id := calculate_key_id spkiExample, value := pkcs1Inner }

/-- A 32-byte Ed25519 public-key value. -/
def ed32 : List Nat := List.replicate 32 3

/-- The key `PublicKey::from_ed25519` builds from `ed32`. -/
def edKey32 : PublicKey :=
  { typ := .Ed25519, format := .HexLower, key_id := calculate_key_id ed32, value := ed32 }

/-- A minimal well-formed PKCS#1 RSA public-key value. -/
def pk1Example : List Nat := [0x30, 0x02, 0x05, 0x06]

/-- The key `PublicKey::from_rsa` builds from `pk1Example`. -/
def pk1Key : PublicKey :=
  { typ := .Rsa, format := .Pkcs1, key_id := calculate_key_id pk1Example, value := pk1Example }

/-! ### C1 — key-id derivation -/

/-- C1 (counterexample).  The claim says the key id of an accepted RSA key
supplied in SPKI format equals SHA-256 of the converted PKCS#1 bytes stored as
the key's value; on the code, `from_rsa` hashes the supplied SPKI bytes before
converting, so for `spkiExample` the accepted key's id differs from the
SHA-256 of its stored value. -/
theorem c1_counterexample :
    PublicKey.from_rsa spkiExample KeyFormat.Spki = Except.ok spkiExampleKey ∧
    spkiExampleKey.key_id ≠ calculate_key_id spkiExampleKey.value := by
  refine ⟨rfl, ?_⟩
  decide

/-- C1 (amended).  For every accepted key, the key id is the SHA-256 of the
value bytes as supplied to the constructor: for Ed25519 this is also the
stored 32-byte value, while for RSA the id is the SHA-256 of the pre-conversion
input bytes (so for SPKI input it is not the hash of the stored PKCS#1 value). -/
theorem c1_key_id_from_supplied_bytes :
    (∀ v k, PublicKey.from_ed25519 v = .ok k →
      k.key_id = calculate_key_id k.value ∧ k.value = v) ∧
    (∀ v fmt k, PublicKey.from_rsa v fmt = .ok k → k.key_id = calculate_key_id v) := by
  constructor
  · intro v k h
    unfold PublicKey.from_ed25519 at h
    split at h
    · exact absurd h (by simp)
    · cases h
      exact ⟨rfl, rfl⟩
  · intro v fmt k h
    cases fmt with
    | HexLower =>
        simp only [PublicKey.from_rsa] at h
        exact absurd h (by simp)
    | Pkcs1 =>
        simp only [PublicKey.from_rsa] at h
        cases hr : rsaFromPkcs1 v with
        | none => rw [hr] at h; exact absurd h (by simp)
        | some bytes =>
            rw [hr] at h
            cases h
            rfl
    | Spki =>
        simp only [PublicKey.from_rsa] at h
        cases hr : rsaFromSpki v with
        | none => rw [hr] at h; exact absurd h (by simp)
        | some bytes =>
            rw [hr] at h
            cases h
            rfl

/-- C1 (witness): the amended statement at the concrete Ed25519 key `ed32`
and the concrete PKCS#1 RSA key `pk1Example`. -/
theorem c1_witness :
    (edKey32.key_id = calculate_key_id edKey32.value ∧ edKey32.value = ed32) ∧
    pk1Key.key_id = calculate_key_id pk1Example :=
  ⟨c1_key_id_from_supplied_bytes.1 ed32 edKey32 rfl,
   c1_key_id_from_supplied_bytes.2 pk1Example .Pkcs1 pk1Key rfl⟩

/-! ### C8 — Ed25519 key length -/

/-- C8 (counterexample).  A 31-byte value is rejected, but the error is the
`Decode` kind, not `IllegalArgument` as the claim states. -/
theorem c8_counterexample :
    PublicKey.from_ed25519 (List.replicate 31 0) =
      .error (.Decode "Ed25519 public key was not 32 bytes long") ∧
    (Error.Decode "Ed25519 public key was not 32 bytes long").isIllegalArgument = false :=
  ⟨rfl, rfl⟩

/-- C8 (amended).  Constructing an Ed25519 public key fails for every value
whose length is not exactly 32 — with a `Decode` error — and succeeds for
every 32-byte value. -/
theorem c8_ed25519_length_check :
    (∀ v : PublicKeyValue, v.length ≠ 32 →
      PublicKey.from_ed25519 v = .error (.Decode "Ed25519 public key was not 32 bytes long")) ∧
    (∀ v : PublicKeyValue, v.length = 32 → ∃ k, PublicKey.from_ed25519 v = .ok k) := by
  constructor
  · intro v h
    unfold PublicKey.from_ed25519
    rw [if_pos h]
  · intro v h
    exact ⟨_, by unfold PublicKey.from_ed25519; rw [if_neg (by simp [h])]⟩

/-- C8 (witness): the amended statement at a 31-byte and a 32-byte value. -/
theorem c8_witness :
    PublicKey.from_ed25519 (List.replicate 31 0) =
      .error (.Decode "Ed25519 public key was not 32 bytes long") ∧
    ∃ k, PublicKey.from_ed25519 (List.replicate 32 0) = .ok k :=
  ⟨c8_ed25519_length_check.1 (List.replicate 31 0) (by decide),
   c8_ed25519_length_check.2 (List.replicate 32 0) (by decide)⟩

/-! ### C9 — unknown signature scheme -/

/-- C9.  `SignatureScheme::from_str` itself returns the
`UnsupportedSignatureScheme` error for the unknown scheme string `"foo"`, but
the `Deserialize` implementation calls `.unwrap()` on that result, so a
serialized signature record carrying scheme `"foo"` makes deserialization
panic instead of returning the error. -/
theorem c9_unknown_scheme_panics_in_deserialization :
    SignatureScheme.fromStr "foo" = .error (.UnsupportedSignatureScheme "foo") ∧
    SignatureScheme.deserializeString "foo" = .panicked :=
  ⟨rfl, rfl⟩

/-! ### Concrete trust-engine fixtures -/

/-- A symbolic public key used by the engine fixtures. -/
def kPub : PublicKey := { typ := .Ed25519, format := .HexLower, key_id := [7], value := [1] }

/-- A role definition authorizing `kPub` with threshold 1. -/
def roleDef1 : RoleDefinition := { key_ids := [[7]], threshold := 1 }

/-- A valid signature by `kPub` over the given canonical bytes. -/
def mkSig (bytes : List Nat) : Signature :=
  { key_id := [7], scheme := .Ed25519, sig := symbolicSig .Ed25519 [1] bytes }

/-- Root metadata at version 2, all roles held by `kPub`. -/
def rootMeta2 : RootMetadata :=
  { version := 2, expires := 100, keys := [([7], kPub)],
    root := roleDef1, snapshot := roleDef1, targets := roleDef1, timestamp := roleDef1 }

/-- The same root metadata at version 1. -/
def rootMeta1 : RootMetadata := { rootMeta2 with version := 1 }

/-- A target description used in the fixtures. -/
def desc0 : TargetDescription := { length := 1, hashes := [] }

/-- A delegation of role `"d"` whose only path pattern is the literal `"foo"`. -/
def dlgFoo : Delegation :=
  { role := "d", key_ids := [[7]], threshold := 1, terminating := false, paths := ["foo"] }

/-- Top-level targets metadata (version 4) with no direct targets and the
single delegation `dlgFoo`. -/
def tgt4 : TargetsMetadata :=
  { version := 4, expires := 100, targets := [],
    delegations := some { keys := [([7], kPub)], roles := [dlgFoo] } }

/-- The delegated targets document for role `"d"`, listing target `"bar"`. -/
def dMeta2 : TargetsMetadata :=
  { version := 2, expires := 100, targets := [("bar", desc0)], delegations := none }

/-- Snapshot metadata at version 5 describing targets v4 and delegation `"d"` v2. -/
def snap5 : SnapshotMetadata :=
  { version := 5, expires := 100,
    meta := [("targets", { version := 4 }), ("d", { version := 2 })] }

/-- Timestamp metadata at version 3 describing snapshot v5. -/
def ts3 : TimestampMetadata := { version := 3, expires := 100, snapshot := { version := 5 } }

/-- A fully populated engine state consistent with the fixtures above. -/
def tuf1 : Tuf :=
  { root := rootMeta2, snapshot := some snap5, targets := some tgt4,
    timestamp := some ts3, delegations := [("d", dMeta2)] }

/-! ### C2 — path-pattern chain matching -/

/-- C2 (counterexample).  In `tuf1`, the target `"bar"` is not listed in the
top-level targets, is only reachable through the delegation `dlgFoo`, and is
not admitted by `dlgFoo`'s path pattern `"foo"` — yet `target_description`
returns its description, because the pattern of the level that yields the hit
is never consulted (at depth 0 no pattern check happens at all). -/
theorem c2_counterexample :
    Tuf.target_description tuf1 5 "bar" = .ok desc0 ∧
    assocGet tgt4.targets "bar" = none ∧
    assocGet dMeta2.targets "bar" = some desc0 ∧
    matchesChain "bar" [dlgFoo.paths] = false := by
  decide

/-- C2 (amended).  The chain of *parent* path patterns gates the search: at
depth > 0 — i.e. below a level whose patterns were pushed onto the chain — a
target path not admitted by that chain yields no description from the branch.
The pattern of the delegation whose own document yields the hit is not itself
checked before returning it (see the counterexample). -/
theorem c2_parent_chain_gates_descent :
    ∀ (tuf : Tuf) (now : Int) (fuel : Nat) (dflt : Bool) (depth : Nat)
      (target : VirtualTargetPath) (roles : List Delegation)
      (parents : List (List VirtualTargetPath)) (visited : List MetadataPath),
      0 < depth → matchesChain target parents = false →
      (lookupRoles tuf now target fuel dflt depth roles parents visited).1.2 = none := by
  intro tuf now fuel dflt depth target roles parents visited hd hm
  cases fuel with
  | zero => rfl
  | succ fuel =>
      cases roles with
      | nil => rfl
      | cons d rest =>
          simp only [lookupRoles]
          split
          · rfl
          · rw [if_pos ⟨hd, by simp [hm]⟩]

/-- C2 (witness): the amended statement at depth 1 with the parent chain
`[["foo"]]`, which does not admit `"bar"`. -/
theorem c2_witness :
    (lookupRoles tuf1 5 "bar" 8 false 1 [dlgFoo] [["foo"]] []).1.2 = none :=
  c2_parent_chain_gates_descent tuf1 5 8 false 1 "bar" [dlgFoo] [["foo"]] []
    (by decide) (by decide)

/-! ### C3 — atomicity with respect to failure -/

/-- C3.  For every mutating operation and every input, an error result leaves
the engine's observable state — root, timestamp, snapshot, targets and the
delegations map — exactly as it was before the call. -/
theorem c3_no_partial_writes :
    (∀ (tuf : Tuf) (sr : SignedMetadata RootMetadata) (e : Error),
      (tuf.update_root sr).1 = .error e → (tuf.update_root sr).2 = tuf) ∧
    (∀ (tuf : Tuf) (now : Int) (st : SignedMetadata TimestampMetadata) (e : Error),
      (tuf.update_timestamp now st).1 = .error e → (tuf.update_timestamp now st).2 = tuf) ∧
    (∀ (tuf : Tuf) (now : Int) (ss : SignedMetadata SnapshotMetadata) (e : Error),
      (tuf.update_snapshot now ss).1 = .error e → (tuf.update_snapshot now ss).2 = tuf) ∧
    (∀ (tuf : Tuf) (now : Int) (st : SignedMetadata TargetsMetadata) (e : Error),
      (tuf.update_targets now st).1 = .error e → (tuf.update_targets now st).2 = tuf) ∧
    (∀ (tuf : Tuf) (now : Int) (pr r : MetadataPath) (sd : SignedMetadata TargetsMetadata)
      (e : Error),
      (tuf.update_delegation now pr r sd).1 = .error e →
        (tuf.update_delegation now pr r sd).2 = tuf) := by
  refine ⟨?_, ?_, ?_, ?_, ?_⟩
  · intro tuf sr e
    simp only [Tuf.update_root]
    repeat' split
    all_goals simp
  · intro tuf now st e
    simp only [Tuf.update_timestamp]
    repeat' split
    all_goals simp
  · intro tuf now ss e
    simp only [Tuf.update_snapshot]
    repeat' split
    all_goals simp
  · intro tuf now st e
    simp only [Tuf.update_targets]
    repeat' split
    all_goals simp
  · intro tuf now pr r sd e
    simp only [Tuf.update_delegation]
    repeat' split
    all_goals simp

/-- The fixture state with no snapshot installed yet. -/
def tufNoSnap : Tuf := { tuf1 with snapshot := none }

/-- The fixture state with no targets installed yet. -/
def tufNoTgt : Tuf := { tuf1 with targets := none }

/-- C3 (witness): one failing call per operation (unsigned inputs fail the
threshold check; the delegation call names a role the snapshot does not
describe), each leaving the state intact. -/
theorem c3_witness :
    (tuf1.update_root { signatures := [], signed := rootMeta1, canonical_bytes := [] }).2 =
      tuf1 ∧
    (tuf1.update_timestamp 5
      { signatures := [], signed := ts3, canonical_bytes := [] }).2 = tuf1 ∧
    (tufNoSnap.update_snapshot 5
      { signatures := [], signed := snap5, canonical_bytes := [] }).2 = tufNoSnap ∧
    (tufNoTgt.update_targets 5
      { signatures := [], signed := tgt4, canonical_bytes := [] }).2 = tufNoTgt ∧
    (tuf1.update_delegation 5 "targets" "nope"
      { signatures := [], signed := dMeta2, canonical_bytes := [] }).2 = tuf1 :=
  ⟨c3_no_partial_writes.1 tuf1 _ (.VerificationFailure "Signature threshold not met: 0/1")
    (by decide),
   c3_no_partial_writes.2.1 tuf1 5 _ (.VerificationFailure "Signature threshold not met: 0/1")
    (by decide),
   c3_no_partial_writes.2.2.1 tufNoSnap 5 _
    (.VerificationFailure "Signature threshold not met: 0/1") (by decide),
   c3_no_partial_writes.2.2.2.1 tufNoTgt 5 _
    (.VerificationFailure "Signature threshold not met: 0/1") (by decide),
   c3_no_partial_writes.2.2.2.2 tuf1 5 "targets" "nope" _
    (.VerificationFailure "The degated role nope was not present in the snapshot metadata.")
    (by decide)⟩

/-! ### C4 — version monotonicity -/

/-- A loaded delegation `"d"` at version 3 together with a snapshot that also
describes it at version 3. -/
def tufDeleg3 : Tuf :=
  { tuf1 with
    snapshot := some
      { version := 5, expires := 100,
        meta := [("targets", { version := 4 }), ("d", { version := 3 })] },
    delegations := [("d", { dMeta2 with version := 3 })] }

/-- A validly signed delegation document presenting version 1. -/
def signedDeleg1 : SignedMetadata TargetsMetadata :=
  { signatures := [mkSig [16]],
    signed := { version := 1, expires := 100, targets := [("bar", desc0)],
                delegations := none },
    canonical_bytes := [16] }

/-- C4 (counterexample).  The claim says a delegation update *presenting* a
version strictly below the installed one is rejected with
`VerificationFailure`; on the code, with delegation `"d"` installed at v3 and
the snapshot still describing v3, a validly signed delegation presenting v1
reaches the equal-described-version test and is accepted as the `Ok(false)`
no-op — the presented version is never compared with the installed one. -/
theorem c4_counterexample :
    signedDeleg1.signed.version < tufDeleg3.current_delegation_version "d" ∧
    tufDeleg3.find_delegation "targets" "d" = some ([kPub], dlgFoo) ∧
    signedDeleg1.verify dlgFoo.threshold [kPub] = .ok signedDeleg1.signed ∧
    tufDeleg3.update_delegation 5 "targets" "d" signedDeleg1 = (.ok false, tufDeleg3) := by
  decide

/-- C4 (amended).  For every role, once the engine holds version `v` of that
role's metadata, an update whose relevant version — the document's own version
for root and timestamp, the version described by the trusted timestamp for
snapshot, by the trusted snapshot for targets *and for delegations* — is
strictly below `v` is rejected with a `VerificationFailure`, provided the
input passes the checks that precede the version comparison (signature
verification for root and timestamp, non-expiration for timestamp, the
safe-reference gates for the others).  The delegation document's own
presented version is not consulted by this comparison (see the
counterexample). -/
theorem c4_monotonicity :
    (∀ (tuf : Tuf) (sr : SignedMetadata RootMetadata) (nr : RootMetadata),
      sr.verify tuf.root.root.threshold (authorizedKeys tuf.root.keys tuf.root.root.key_ids) =
        .ok nr →
      nr.version < tuf.root.version →
      ∃ s, (tuf.update_root sr).1 = .error (.VerificationFailure s)) ∧
    (∀ (tuf : Tuf) (now : Int) (st : SignedMetadata TimestampMetadata)
      (t : TimestampMetadata),
      st.verify tuf.root.timestamp.threshold
        (authorizedKeys tuf.root.keys tuf.root.timestamp.key_ids) = .ok t →
      ¬ t.expires ≤ now →
      t.version < tuf.current_timestamp_version →
      ∃ s, (tuf.update_timestamp now st).1 = .error (.VerificationFailure s)) ∧
    (∀ (tuf : Tuf) (now : Int) (ss : SignedMetadata SnapshotMetadata)
      (r : RootMetadata) (ts : TimestampMetadata),
      tuf.safe_root_ref now = .ok r →
      tuf.safe_timestamp_ref now = .ok ts →
      ts.snapshot.version < tuf.current_snapshot_version →
      ∃ s, (tuf.update_snapshot now ss).1 = .error (.VerificationFailure s)) ∧
    (∀ (tuf : Tuf) (now : Int) (st : SignedMetadata TargetsMetadata)
      (r : RootMetadata) (sn : SnapshotMetadata) (d : MetadataDescription),
      tuf.safe_root_ref now = .ok r →
      tuf.safe_snapshot_ref now = .ok sn →
      assocGet sn.meta "targets" = some d →
      d.version < tuf.current_targets_version →
      ∃ s, (tuf.update_targets now st).1 = .error (.VerificationFailure s)) ∧
    (∀ (tuf : Tuf) (now : Int) (pr role : MetadataPath)
      (sd : SignedMetadata TargetsMetadata) (r : RootMetadata)
      (sn : SnapshotMetadata) (tg : TargetsMetadata) (d : MetadataDescription),
      tuf.safe_root_ref now = .ok r →
      tuf.safe_snapshot_ref now = .ok sn →
      tuf.safe_targets_ref now = .ok tg →
      tg.delegations.isNone = false →
      assocGet sn.meta role = some d →
      d.version < tuf.current_delegation_version role →
      ∃ s, (tuf.update_delegation now pr role sd).1 =
        .error (.VerificationFailure s)) := by
  refine ⟨?_, ?_, ?_, ?_, ?_⟩
  · intro tuf sr nr hver hlt
    simp only [Tuf.update_root, hver]
    rw [if_neg (Nat.ne_of_lt hlt), if_pos hlt]
    exact ⟨_, rfl⟩
  · intro tuf now st t hver hexp hlt
    simp only [Tuf.update_timestamp, hver]
    rw [if_neg hexp, if_pos hlt]
    exact ⟨_, rfl⟩
  · intro tuf now ss r ts hroot hts hlt
    simp only [Tuf.update_snapshot, hroot, hts]
    rw [if_pos hlt]
    exact ⟨_, rfl⟩
  · intro tuf now st r sn d hroot hsn hd hlt
    simp only [Tuf.update_targets, hroot, hsn, hd]
    rw [if_pos hlt]
    exact ⟨_, rfl⟩
  · intro tuf now pr role sd r sn tg d hroot hsn htg hdel hd hlt
    simp only [Tuf.update_delegation, hroot, hsn, htg, hdel, hd, Bool.false_eq_true,
      if_false, if_pos hlt]
    exact ⟨_, rfl⟩

/-- Fixture: `tuf1` with a trusted timestamp describing snapshot v4 while
snapshot v5 is installed. -/
def tufTsBehind : Tuf :=
  { tuf1 with timestamp := some { version := 3, expires := 100, snapshot := { version := 4 } } }

/-- Fixture: `tuf1` with a snapshot describing targets v3 while targets v4 is
installed. -/
def tufSnapBehind : Tuf :=
  { tuf1 with
    snapshot := some
      { version := 5, expires := 100,
        meta := [("targets", { version := 3 }), ("d", { version := 2 })] } }

/-- Fixture: `tuf1` holding delegation `"d"` at v3 while the snapshot
describes it at v2. -/
def tufDelegAhead : Tuf :=
  { tuf1 with delegations := [("d", { dMeta2 with version := 3 })] }

/-- A validly signed root at version 1 (below the installed version 2). -/
def signedRoot1 : SignedMetadata RootMetadata :=
  { signatures := [mkSig [9]], signed := rootMeta1, canonical_bytes := [9] }

/-- A validly signed timestamp at version 2 (below the installed version 3). -/
def signedTs2 : SignedMetadata TimestampMetadata :=
  { signatures := [mkSig [10]],
    signed := { version := 2, expires := 100, snapshot := { version := 5 } },
    canonical_bytes := [10] }

/-- C4 (witness): each of the five rollback rejections at a concrete state. -/
theorem c4_witness :
    (∃ s, (tuf1.update_root signedRoot1).1 = .error (.VerificationFailure s)) ∧
    (∃ s, (tuf1.update_timestamp 5 signedTs2).1 = .error (.VerificationFailure s)) ∧
    (∃ s, (tufTsBehind.update_snapshot 5
      { signatures := [], signed := snap5, canonical_bytes := [] }).1 =
        .error (.VerificationFailure s)) ∧
    (∃ s, (tufSnapBehind.update_targets 5
      { signatures := [], signed := tgt4, canonical_bytes := [] }).1 =
        .error (.VerificationFailure s)) ∧
    (∃ s, (tufDelegAhead.update_delegation 5 "targets" "d"
      { signatures := [], signed := dMeta2, canonical_bytes := [] }).1 =
        .error (.VerificationFailure s)) :=
  ⟨c4_monotonicity.1 tuf1 signedRoot1 rootMeta1 (by decide) (by decide),
   c4_monotonicity.2.1 tuf1 5 signedTs2 signedTs2.signed (by decide) (by decide) (by decide),
   c4_monotonicity.2.2.1 tufTsBehind 5 _ rootMeta2
     { version := 3, expires := 100, snapshot := { version := 4 } }
     (by decide) (by decide) (by decide),
   c4_monotonicity.2.2.2.1 tufSnapBehind 5 _ rootMeta2
     { version := 5, expires := 100,
       meta := [("targets", { version := 3 }), ("d", { version := 2 })] }
     { version := 3 } (by decide) (by decide) (by decide) (by decide),
   c4_monotonicity.2.2.2.2 tufDelegAhead 5 "targets" "d" _ rootMeta2 snap5 tgt4
     { version := 2 } (by decide) (by decide) (by decide) (by decide) (by decide) (by decide)⟩

/-! ### C5 — no-op on equal version -/

/-- Fixture: `tuf1` with a trusted timestamp describing snapshot v6 while
snapshot v5 is installed. -/
def tufTsAhead : Tuf :=
  { tuf1 with timestamp := some { version := 3, expires := 100, snapshot := { version := 6 } } }

/-- A validly signed copy of the installed snapshot `snap5`. -/
def signedSnap5 : SignedMetadata SnapshotMetadata :=
  { signatures := [mkSig [11]], signed := snap5, canonical_bytes := [11] }

/-- C5 (counterexample).  In `tufTsAhead` the supplied snapshot's version (5)
equals the installed snapshot's version, the root and timestamp gates pass,
and the document is validly signed — yet `update_snapshot` does not return
`Ok(false)`: the no-op comparison uses the timestamp's described version (6),
so the call proceeds and fails the version-match check. -/
theorem c5_counterexample :
    signedSnap5.signed.version = tufTsAhead.current_snapshot_version ∧
    tufTsAhead.safe_root_ref 5 = .ok rootMeta2 ∧
    tufTsAhead.safe_timestamp_ref 5 =
      .ok { version := 3, expires := 100, snapshot := { version := 6 } } ∧
    (tufTsAhead.update_snapshot 5 signedSnap5).1 ≠ .ok false ∧
    (tufTsAhead.update_snapshot 5 signedSnap5).1 =
      .error (.VerificationFailure
        "The timestamp metadata reported that the snapshot metadata should be at version 6 but version 5 was found instead.") := by
  decide

/-- C5 (amended).  Root and timestamp updates whose version equals the
installed one return the not-advanced result (`Ok(false)` / `Ok(None)`) with
the state unchanged, given the checks preceding the comparison pass.  For
snapshot and targets, the compared version is the *described* one: when the
trusted timestamp's snapshot description (resp. the trusted snapshot's targets
description) equals the installed version, the call returns `Ok(false)` and
leaves the state unchanged — for every input document. -/
theorem c5_noop_on_equal_version :
    (∀ (tuf : Tuf) (sr : SignedMetadata RootMetadata) (nr : RootMetadata),
      sr.verify tuf.root.root.threshold (authorizedKeys tuf.root.keys tuf.root.root.key_ids) =
        .ok nr →
      nr.version = tuf.root.version →
      tuf.update_root sr = (.ok false, tuf)) ∧
    (∀ (tuf : Tuf) (now : Int) (st : SignedMetadata TimestampMetadata)
      (t : TimestampMetadata),
      st.verify tuf.root.timestamp.threshold
        (authorizedKeys tuf.root.keys tuf.root.timestamp.key_ids) = .ok t →
      ¬ t.expires ≤ now →
      t.version = tuf.current_timestamp_version →
      tuf.update_timestamp now st = (.ok none, tuf)) ∧
    (∀ (tuf : Tuf) (now : Int) (ss : SignedMetadata SnapshotMetadata)
      (r : RootMetadata) (ts : TimestampMetadata),
      tuf.safe_root_ref now = .ok r →
      tuf.safe_timestamp_ref now = .ok ts →
      ts.snapshot.version = tuf.current_snapshot_version →
      tuf.update_snapshot now ss = (.ok false, tuf)) ∧
    (∀ (tuf : Tuf) (now : Int) (st : SignedMetadata TargetsMetadata)
      (r : RootMetadata) (sn : SnapshotMetadata) (d : MetadataDescription),
      tuf.safe_root_ref now = .ok r →
      tuf.safe_snapshot_ref now = .ok sn →
      assocGet sn.meta "targets" = some d →
      d.version = tuf.current_targets_version →
      tuf.update_targets now st = (.ok false, tuf)) := by
  refine ⟨?_, ?_, ?_, ?_⟩
  · intro tuf sr nr hver heq
    simp only [Tuf.update_root, hver, if_pos heq]
  · intro tuf now st t hver hexp heq
    simp only [Tuf.update_timestamp, hver]
    rw [if_neg hexp, if_neg (by omega), if_pos heq]
  · intro tuf now ss r ts hroot hts heq
    simp only [Tuf.update_snapshot, hroot, hts]
    rw [if_neg (by omega), if_pos heq]
  · intro tuf now st r sn d hroot hsn hd heq
    simp only [Tuf.update_targets, hroot, hsn, hd]
    rw [if_neg (by omega), if_pos heq]

/-- A validly signed copy of the installed root `rootMeta2`. -/
def signedRoot2 : SignedMetadata RootMetadata :=
  { signatures := [mkSig [12]], signed := rootMeta2, canonical_bytes := [12] }

/-- A validly signed copy of the installed timestamp `ts3`. -/
def signedTs3 : SignedMetadata TimestampMetadata :=
  { signatures := [mkSig [13]], signed := ts3, canonical_bytes := [13] }

/-- C5 (witness): the amended statement at `tuf1` — replaying the installed
root, timestamp, snapshot and targets all yield the not-advanced result and
leave the state untouched. -/
theorem c5_witness :
    tuf1.update_root signedRoot2 = (.ok false, tuf1) ∧
    tuf1.update_timestamp 5 signedTs3 = (.ok none, tuf1) ∧
    tuf1.update_snapshot 5 { signatures := [], signed := snap5, canonical_bytes := [] } =
      (.ok false, tuf1) ∧
    tuf1.update_targets 5 { signatures := [], signed := tgt4, canonical_bytes := [] } =
      (.ok false, tuf1) :=
  ⟨c5_noop_on_equal_version.1 tuf1 signedRoot2 rootMeta2 (by decide) (by decide),
   c5_noop_on_equal_version.2.1 tuf1 5 signedTs3 ts3 (by decide) (by decide) (by decide),
   c5_noop_on_equal_version.2.2.1 tuf1 5 _ rootMeta2 ts3 (by decide) (by decide) (by decide),
   c5_noop_on_equal_version.2.2.2 tuf1 5 _ rootMeta2 snap5 { version := 4 }
     (by decide) (by decide) (by decide) (by decide)⟩

/-! ### C10 — the snapshot no-op ignores the supplied document -/

/-- C10.  Whenever the trusted timestamp's snapshot description equals the
installed snapshot's version (and the root and timestamp gates pass),
`update_snapshot` returns `Ok(false)` and leaves the state unchanged for
*every* supplied document — the decision compares the timestamp's claimed
version with the installed one and never consults, or verifies, the input. -/
theorem c10_snapshot_noop_ignores_input :
    ∀ (tuf : Tuf) (now : Int) (ss : SignedMetadata SnapshotMetadata)
      (r : RootMetadata) (ts : TimestampMetadata),
      tuf.safe_root_ref now = .ok r →
      tuf.safe_timestamp_ref now = .ok ts →
      ts.snapshot.version = tuf.current_snapshot_version →
      tuf.update_snapshot now ss = (.ok false, tuf) := by
  intro tuf now ss r ts hroot hts heq
  simp only [Tuf.update_snapshot, hroot, hts]
  rw [if_neg (by omega), if_pos heq]

/-- An unsigned, inconsistent snapshot document (version 99, already expired,
empty meta). -/
def ssGarbage : SignedMetadata SnapshotMetadata :=
  { signatures := [],
    signed := { version := 99, expires := 0, meta := [] }, canonical_bytes := [42] }

/-- C10 (witness): in `tuf1` (timestamp describes snapshot v5, snapshot v5
installed) the garbage document is accepted as a no-op. -/
theorem c10_witness : tuf1.update_snapshot 5 ssGarbage = (.ok false, tuf1) :=
  c10_snapshot_noop_ignores_input tuf1 5 ssGarbage rootMeta2 ts3
    (by decide) (by decide) (by decide)

/-! ### C6 — snapshot expiration deferred to read time -/

/-- Purging delegations never touches the snapshot slot. -/
theorem purge_delegations_snapshot (t : Tuf) :
    (t.purge_delegations).snapshot = t.snapshot := by
  cases h : t.snapshot <;> simp [Tuf.purge_delegations, h]

/-- C6.  (a) `update_snapshot` never checks the incoming snapshot's
expiration: an already-expired snapshot that passes the gates, the version
comparison against the timestamp's description, signature verification and
the version-match check is installed with `Ok(true)`.  (b) At read time, with
a valid root, an expired installed snapshot makes `update_targets`,
`update_delegation` and `target_description` fail with
`ExpiredMetadata(Snapshot)` and leave the state unchanged. -/
theorem c6_snapshot_expiry_read_gated :
    (∀ (tuf : Tuf) (now : Int) (ss : SignedMetadata SnapshotMetadata)
      (r : RootMetadata) (ts : TimestampMetadata) (snap : SnapshotMetadata),
      tuf.safe_root_ref now = .ok r →
      tuf.safe_timestamp_ref now = .ok ts →
      tuf.current_snapshot_version < ts.snapshot.version →
      ss.verify r.snapshot.threshold (authorizedKeys tuf.root.keys r.snapshot.key_ids) =
        .ok snap →
      snap.version = ts.snapshot.version →
      snap.expires ≤ now →
      (tuf.update_snapshot now ss).1 = .ok true ∧
        (tuf.update_snapshot now ss).2.snapshot = some snap) ∧
    (∀ (tuf : Tuf) (now : Int) (s : SnapshotMetadata),
      tuf.snapshot = some s →
      s.expires ≤ now →
      ¬ tuf.root.expires ≤ now →
      (∀ st, tuf.update_targets now st = (.error (.ExpiredMetadata .Snapshot), tuf)) ∧
      (∀ pr role sd,
        tuf.update_delegation now pr role sd = (.error (.ExpiredMetadata .Snapshot), tuf)) ∧
      (∀ path, tuf.target_description now path = .error (.ExpiredMetadata .Snapshot))) := by
  constructor
  · intro tuf now ss r ts snap hroot hts hlt hver hveq _hexp
    simp only [Tuf.update_snapshot, hroot, hts, hver]
    rw [if_neg (by omega), if_neg (by omega), if_neg (fun h => h hveq)]
    exact ⟨rfl, by rw [purge_delegations_snapshot]⟩
  · intro tuf now s hs hexp hroot
    refine ⟨?_, ?_, ?_⟩
    · intro st
      simp [Tuf.update_targets, Tuf.safe_root_ref, Tuf.safe_snapshot_ref, hroot, hs, hexp]
    · intro pr role sd
      simp [Tuf.update_delegation, Tuf.safe_root_ref, Tuf.safe_snapshot_ref, hroot, hs, hexp]
    · intro path
      simp [Tuf.target_description, Tuf.safe_root_ref, Tuf.safe_snapshot_ref, hroot, hs, hexp]

/-- A validly signed snapshot at version 6 that is already expired at time 5. -/
def signedSnap6Expired : SignedMetadata SnapshotMetadata :=
  { signatures := [mkSig [14]],
    signed := { version := 6, expires := 3,
                meta := [("targets", { version := 4 }), ("d", { version := 2 })] },
    canonical_bytes := [14] }

/-- Fixture: `tuf1` with its installed snapshot already expired at time 5. -/
def tufExpSnap : Tuf :=
  { tuf1 with snapshot := some { snap5 with expires := 3 } }

/-- C6 (witness): installing the expired snapshot `signedSnap6Expired` into
`tufTsAhead` succeeds, and in `tufExpSnap` the three read operations all fail
with `ExpiredMetadata(Snapshot)`. -/
theorem c6_witness :
    ((tufTsAhead.update_snapshot 5 signedSnap6Expired).1 = .ok true ∧
      (tufTsAhead.update_snapshot 5 signedSnap6Expired).2.snapshot =
        some signedSnap6Expired.signed) ∧
    tufExpSnap.update_targets 5 { signatures := [], signed := tgt4, canonical_bytes := [] } =
      (.error (.ExpiredMetadata .Snapshot), tufExpSnap) ∧
    tufExpSnap.update_delegation 5 "targets" "d"
      { signatures := [], signed := dMeta2, canonical_bytes := [] } =
      (.error (.ExpiredMetadata .Snapshot), tufExpSnap) ∧
    tufExpSnap.target_description 5 "bar" = .error (.ExpiredMetadata .Snapshot) :=
  have hb := c6_snapshot_expiry_read_gated.2 tufExpSnap 5 { snap5 with expires := 3 }
    (by decide) (by decide) (by decide)
  ⟨c6_snapshot_expiry_read_gated.1 tufTsAhead 5 signedSnap6Expired rootMeta2
     { version := 3, expires := 100, snapshot := { version := 6 } }
     signedSnap6Expired.signed
     (by decide) (by decide) (by decide) (by decide) (by decide) (by decide),
   hb.1 _, hb.2.1 "targets" "d" _, hb.2.2 "bar"⟩

/-! ### C7 — expired targets update names the wrong role -/

/-- Fixture: `tuf1` with no targets installed and a snapshot describing
targets v6. -/
def tufC7 : Tuf :=
  { tuf1 with
    targets := none,
    snapshot := some
      { version := 5, expires := 100,
        meta := [("targets", { version := 6 }), ("d", { version := 2 })] } }

/-- A validly signed targets document at version 6 that is already expired at
time 5. -/
def signedTgt6Expired : SignedMetadata TargetsMetadata :=
  { signatures := [mkSig [15]],
    signed := { version := 6, expires := 3, targets := [], delegations := none },
    canonical_bytes := [15] }

/-- C7.  A targets update that passes signature verification and both
snapshot version checks but is expired is rejected with `ExpiredMetadata` —
but the role carried by the error is `Snapshot`, not `Targets` as the claim
(and the spec) state; the targets slot stays unchanged. -/
theorem c7_expired_targets_misnames_role :
    tufC7.update_targets 5 signedTgt6Expired =
      (.error (.ExpiredMetadata Role.Snapshot), tufC7) ∧
    Role.Snapshot ≠ Role.Targets := by
  decide

end RustTuf
